import Mathlib

/-!
Shallow embedding of the PlantAI repository (`app1.py` and `report_generator.py`).

Python strings are modelled as `List Char`; Python `None`-able values as
`Option`; raised exceptions as `Except` / dedicated result constructors.
Every definition below is translated from the corresponding function of the
source; the comment on each definition names the source location.
-/

namespace PlantAI

/-- Bool-valued test that `needle` is an initial segment of `hay`.
Building block for the model of the Python substring operator `in`. -/
def startsW : List Char → List Char → Bool
  | [], _ => true
  | _ :: _, [] => false
  | a :: as, b :: bs => (a == b) && startsW as bs

/-- Model of the Python substring test `needle in hay` on strings: a leftmost
scan that checks `needle` as a prefix at every position.  As in Python, the
empty needle is contained in every string. -/
def containsSub (needle : List Char) : List Char → Bool
  | [] => needle.isEmpty
  | c :: rest => startsW needle (c :: rest) || containsSub needle rest

/-- The separator used by `parse_class_name` (app1.py line 99): `"___"`. -/
def delim : List Char := ['_', '_', '_']

/-- Helper for `split3`: prepend a character to the first segment of a split
result (the list of segments produced by the rest of the string). -/
def consHead (c : Char) : List (List Char) → List (List Char)
  | [] => [[c]]
  | p :: ps => (c :: p) :: ps

/-- Model of Python `raw.split('___')` (app1.py line 99): leftmost
non-overlapping scan for the three-underscore separator, exactly CPython's
`str.split` semantics for a non-empty separator (no maxsplit). -/
def split3 : List Char → List (List Char)
  | [] => [[]]
  | '_' :: '_' :: '_' :: rest => [] :: split3 rest
  | c :: rest => consHead c (split3 rest)

/-- Model of Python `s.replace('_', ' ')` (app1.py lines 100-101). -/
def usToSpace (l : List Char) : List Char :=
  l.map (fun c => if c = '_' then ' ' else c)

/-- Model of Python `s.replace(',', '')` (app1.py line 100). -/
def removeCommas (l : List Char) : List Char :=
  l.filter (fun c => c != ',')

/-- Model of Python `s.lower()` (ASCII case folding, which covers every string
the application produces). -/
def pyLower (l : List Char) : List Char := l.map Char.toLower

/-- The literal `"Unknown"` used as the fallback condition (app1.py line 101). -/
def unknownStr : List Char := "Unknown".toList

/-- The literal `"healthy"` tested against the condition (app1.py line 102). -/
def healthyWord : List Char := "healthy".toList

/-- The condition selection of `parse_class_name` (app1.py line 101):
`parts[1].replace('_', ' ') if len(parts) > 1 else 'Unknown'`. -/
def pcCondition (parts : List (List Char)) : List Char :=
  if 1 < parts.length then usToSpace (parts.getD 1 []) else unknownStr

/-- Model of `parse_class_name` (app1.py lines 98-103).  Returns
`(plant, condition, is_healthy)`:
`parts = raw.split('___')`; `plant = parts[0].replace('_',' ').replace(',','')`;
`condition = parts[1].replace('_',' ') if len(parts) > 1 else 'Unknown'`;
`is_healthy = 'healthy' in condition.lower()`. -/
def parse_class_name (raw : List Char) : List Char × List Char × Bool :=
  (removeCommas (usToSpace ((split3 raw).headD [])),
   pcCondition (split3 raw),
   containsSub healthyWord (pyLower (pcCondition (split3 raw))))

/-! ### Chat streaming (app1.py lines 365-382) -/

/-- Model of Python `text.replace('\n', '\\n')` (app1.py line 376): each
newline becomes the two characters backslash-n. -/
def escapeNL : List Char → List Char
  | [] => []
  | c :: rest => (if c = '\n' then ['\\', 'n'] else [c]) ++ escapeNL rest

/-- The event yielded for one non-empty chunk text (app1.py line 377). -/
def dataEvent (t : List Char) : List Char :=
  "data: ".toList ++ escapeNL t ++ "\n\n".toList

/-- The sentinel event yielded after a complete upstream iteration
(app1.py line 379). -/
def doneEvent : List Char := "data: [DONE]\n\n".toList

/-- The event yielded when the upstream iteration raises (app1.py line 382). -/
def errorEvent (e : List Char) : List Char :=
  "data: [ERROR] ".toList ++ e ++ "\n\n".toList

/-- Model of the generator `generate()` inside the `/chat` route
(app1.py lines 365-382).  `chunks` are the chunk texts that arrive from the
upstream stream before it either completes (`err = none`) or raises with
message `e` (`err = some e`); `[]` models a chunk whose text is empty or
`None`, which `if text:` skips.  Each arrived non-empty text is relayed as a
`data:` event in order; after the loop either the `[DONE]` sentinel (normal
completion) or the `[ERROR]` event (exception) is yielded. -/
def generate : List (List Char) → Option (List Char) → List (List Char)
  | [], none => [doneEvent]
  | [], some e => [errorEvent e]
  | t :: ts, err => (if t = [] then [] else [dataEvent t]) ++ generate ts err

/-- The event that closes the relayed stream: `[DONE]` on normal completion of
the upstream iteration, the error relay otherwise. -/
def terminalEvent : Option (List Char) → List Char
  | none => doneEvent
  | some e => errorEvent e

/-! ### Prediction (app1.py lines 106-138) -/

/-- Model of Python `round(x, 2)` on the rational model of the score:
round to two decimal places.  (Rounding of exact halves is modelled as
round-half-up; no claim depends on tie behaviour.) -/
def round2 (x : ℚ) : ℚ := ((round (x * 100) : ℤ) : ℚ) / 100

/-- Model of `np.max` over the probability vector (app1.py line 112). -/
def listMax : List ℚ → ℚ
  | [] => 0
  | [p] => p
  | p :: q :: rest => max p (listMax (q :: rest))

/-- Helper for `argmax`: scan remembering the first index of the running
maximum (`i` is the index of the head of the remaining list). -/
def argmaxAux : List ℚ → Nat → Nat → ℚ → Nat
  | [], _, best, _ => best
  | p :: rest, i, best, bestVal =>
    if bestVal < p then argmaxAux rest (i + 1) i p
    else argmaxAux rest (i + 1) best bestVal

/-- Model of `int(np.argmax(probs))` (app1.py line 111): index of the first
occurrence of the maximum. -/
def argmax : List ℚ → Nat
  | [] => 0
  | p :: rest => argmaxAux rest 1 0 p

/-- The canned recommendation list of the healthy branch
(app1.py lines 117-122). -/
def healthyRecs : List (List Char) :=
  ["Continue regular watering and care".toList,
   "Ensure adequate sunlight and nutrients".toList,
   "Monitor for any changes in appearance".toList,
   "Maintain good air circulation".toList]

/-- The canned recommendation list of the diseased branch
(app1.py lines 124-129). -/
def diseasedRecs : List (List Char) :=
  ["Isolate affected plants to prevent spread".toList,
   "Consult with an agricultural expert".toList,
   "Consider appropriate treatment methods".toList,
   "Monitor other plants for similar symptoms".toList]

/-- The dictionary returned by `predict_image` (app1.py lines 131-138). -/
structure Prediction where
  raw_class : List Char
  plant_type : List Char
  condition : List Char
  is_healthy : Bool
  confidence : ℚ
  recommendations : List (List Char)

/-- The pure core of `predict_image` (app1.py lines 111-138), given the class
name list (global `class_names`) and the model's output probability vector:
argmax index, confidence `round(np.max(probs) * 100, 2)`, the raw label
(`"Unknown"` when the index is out of range of the class list, line 113),
the parsed label and the branch-selected recommendation list. -/
def predict_core (cns : List (List Char)) (probs : List ℚ) : Prediction :=
  let idx := argmax probs
  let raw := if idx < cns.length then cns.getD idx [] else unknownStr
  { raw_class := raw
    plant_type := (parse_class_name raw).1
    condition := (parse_class_name raw).2.1
    is_healthy := (parse_class_name raw).2.2
    confidence := round2 (listMax probs * 100)
    recommendations :=
      if (parse_class_name raw).2.2 then healthyRecs else diseasedRecs }

/-- Outcome of `predict_image` (app1.py lines 106-138): the distinguished
`ValueError("Model not loaded")`, a propagated decode/inference exception,
or the prediction dictionary. -/
inductive PredictResult where
  | modelNotLoaded
  | failure (msg : List Char)
  | ok (p : Prediction)

/-- Model of `predict_image` (app1.py lines 106-138).  `modelLoaded` models
`model is not None`; `image` models the combined outcome of
`preprocess_image` + `model.predict` (`Except.error e` when decoding or
inference raises with message `e`, `Except.ok probs` otherwise).  The
`model is None` check happens first (line 107), before any decoding. -/
def predict_image (modelLoaded : Bool) (image : Except (List Char) (List ℚ))
    (cns : List (List Char)) : PredictResult :=
  if modelLoaded then
    match image with
    | .error e => .failure e
    | .ok probs => .ok (predict_core cns probs)
  else .modelNotLoaded

/-! ### The `/predict` route (app1.py lines 188-222) -/

/-- The three response shapes of the `/predict` handler. -/
inductive HttpResp where
  | badRequest (msg : List Char)
  | okSuccess
  | serverError (msg : List Char)

/-- HTTP status code of a `/predict` response. -/
def statusOf : HttpResp → Nat
  | .badRequest _ => 400
  | .okSuccess => 200
  | .serverError _ => 500

/-- Model of the `/predict` handler (app1.py lines 188-222).  `file` is
`none` when `'file' not in request.files`, `some fname` otherwise with the
upload's filename; `pipeline` models the save/predict/convert block inside
the `try` (lines 202-214): its exception message on failure.  The handler
returns 400 for a missing entry or empty filename, 200 on success, and 500
when the guarded block raises. -/
def predict_route (file : Option (List Char))
    (pipeline : Except (List Char) Unit) : HttpResp :=
  match file with
  | none => .badRequest ("No file uploaded".toList)
  | some fname =>
    if fname = [] then .badRequest ("No file selected".toList)
    else
      match pipeline with
      | .ok _ => .okSuccess
      | .error e => .serverError e

/-! ### Report generator (report_generator.py) -/

/-- The three colour constants used in risk ratings (report_generator.py
lines 44-45, 42): `DANGER_RED`, `WARN_ORANGE`, `ACCENT_GREEN`. -/
inductive RiskColor where
  | dangerRed
  | warnOrange
  | accentGreen

/-- One entry of `DISEASE_DATA` (report_generator.py lines 57-132): pathogen
name, taxonomy rows, overview paragraph, staged symptoms, organic and
chemical treatment tables, risk ratings and prevention bullet points. -/
structure DiseaseRecord where
  pathogen : List Char
  taxonomy : List (List Char × List Char)
  overview : List Char
  symptoms : List (List Char × List Char)
  organic_treatments : List (List Char × List Char × List Char)
  chemical_treatments : List (List Char × List Char × List Char × List Char)
  risks : List (List Char × List Char × RiskColor × List Char)
  prevention : List (List Char)

/-- The single knowledge-base record, transcribed from
`DISEASE_DATA["strawberry___leaf_scorch"]` (report_generator.py
lines 58-129). -/
def strawberryLeafScorch : DiseaseRecord :=
  { pathogen := "Diplocarpon earlianum (Ellis & Everh.) F.A. Wolf".toList
    taxonomy :=
      [("Kingdom".toList, "Fungi".toList),
       ("Phylum".toList, "Ascomycota".toList),
       ("Class".toList, "Leotiomycetes".toList),
       ("Order".toList, "Helotiales".toList),
       ("Family".toList, "Dermateaceae".toList),
       ("Genus".toList, "Diplocarpon".toList),
       ("Species".toList, "D. earlianum".toList),
       ("Common Name".toList, "Strawberry Leaf Scorch".toList)]
    overview :=
      ("Strawberry Leaf Scorch is caused by the ascomycete fungus " ++
       "<i>Diplocarpon earlianum</i>. The pathogen overwinters in infected " ++
       "leaf debris as apothecia and initiates primary infections in spring " ++
       "when ascospores are released during rain. Asexual conidia produced " ++
       "in acervuli drive rapid secondary spread. Optimal conditions are " ++
       "18–24°C with leaf wetness periods of 6+ hours.").toList
    symptoms :=
      [("Stage 1 — Early Infection (Days 1–7)".toList,
        ("Tiny (1–3 mm) irregular purple-red spots appear on the upper leaf " ++
         "surface. Spots are scattered and commonly mistaken for insect damage.").toList),
       ("Stage 2 — Lesion Expansion (Days 7–14)".toList,
        ("Spots enlarge to 3–6 mm with dark-purple margins and tan/grey necrotic " ++
         "centres. Lesions coalesce along leaf veins, giving a scorched appearance.").toList),
       ("Stage 3 — Advanced Necrosis (Days 14–21)".toList,
        ("Large irregular blotches cover significant leaf area. Leaf edges curl " ++
         "upward, turn brown, and dry out. Severe defoliation may begin.").toList),
       ("Stage 4 — Secondary Spread (Day 21+)".toList,
        ("Acervuli (black spore-bearing structures) visible under magnification. " ++
         "Rain-splashed conidia infect neighbouring plants. Yield significantly reduced.").toList)]
    organic_treatments :=
      [("Copper hydroxide 77% WP".toList, "2.5 g / litre water".toList,
        "Every 7–10 days during wet seasons".toList),
       ("Neem oil (3,000 ppm azadirachtin)".toList, "5 ml / litre + surfactant".toList,
        "Every 10–14 days; avoid midday".toList),
       ("Potassium bicarbonate".toList, "5 g / litre water".toList,
        "Preventative; every 7 days".toList),
       ("Bacillus subtilis (Serenade)".toList, "Per label rate".toList,
        "Every 5–7 days; compatible with copper".toList)]
    chemical_treatments :=
      [("Myclobutanil".toList, "Rally 40WSP".toList, "0.34–0.57 g/L".toList,
        "Every 10–14 days; max 4 apps/season".toList),
       ("Captan".toList, "Captan 50WP".toList, "2.0–3.0 g/L".toList,
        "Every 7–10 days; do not mix with oils".toList),
       ("Tebuconazole".toList, "Elite 45DF".toList, "0.28 g/L".toList,
        "Every 14 days; FRAC Group 3".toList),
       ("Pyraclostrobin".toList, "Cabrio EG".toList, "0.56 g/L".toList,
        "Max 2 consecutive apps; rotate groups".toList),
       ("Azoxystrobin".toList, "Quadris SC".toList, "0.77 ml/L".toList,
        "FRAC Group 11; rotate to avoid resistance".toList)]
    risks :=
      [("Infection Risk".toList, "HIGH".toList, RiskColor.dangerRed,
        "Spreads rapidly via rain-splash conidia. Early isolation is critical.".toList),
       ("Yield Impact".toList, "HIGH".toList, RiskColor.dangerRed,
        "Severe infections reduce marketable yield by 30–70% via premature defoliation.".toList),
       ("Spread Mechanism".toList, "MODERATE".toList, RiskColor.warnOrange,
        "Primary: rain splash and overhead irrigation. Secondary: tools, footwear, transplants.".toList),
       ("Environmental Risk".toList, "MODERATE".toList, RiskColor.warnOrange,
        "Peak risk at 18–24°C with >6 h leaf wetness — typical of spring/autumn rainy periods.".toList),
       ("Resistance Risk".toList, "LOW".toList, RiskColor.accentGreen,
        "Resistance possible with FRAC Groups 3 and 11. Rotate chemical classes.".toList)]
    prevention :=
      ["Use certified disease-free transplants from reputable nurseries.".toList,
       "Select resistant cultivars (e.g., Allstar, Delite, Lateglow).".toList,
       "Implement drip irrigation — avoid overhead watering to keep foliage dry.".toList,
       "Maintain plant spacing ≥ 30 cm to promote airflow and reduce canopy humidity.".toList,
       "Remove and destroy infected debris promptly; do not compost diseased material.".toList,
       "Apply a preventative fungicide programme before disease establishment.".toList,
       "Sanitise tools, boots, and equipment between rows and between fields.".toList,
       "Scout weekly from early spring; act at first sign of lesions.".toList,
       "Apply balanced fertilisation; avoid excess nitrogen which increases susceptibility.".toList,
       "Rotate strawberry planting sites every 2–3 years.".toList] }

/-- The `DISEASE_DATA` dictionary (report_generator.py lines 57-132):
a single key, `"strawberry___leaf_scorch"`. -/
def DISEASE_DATA : List (List Char × DiseaseRecord) :=
  [("strawberry___leaf_scorch".toList, strawberryLeafScorch)]

/-- Model of `DISEASE_DATA.get(key)`: `none` when the key is absent. -/
def dictGet (k : List Char) : Option DiseaseRecord :=
  (DISEASE_DATA.find? (fun kv => kv.1 == k)).map (fun kv => kv.2)

/-- Model of Python `s.replace(" ", "_")` (report_generator.py lines 262, 266). -/
def spaceToUnderscore (l : List Char) : List Char :=
  l.map (fun c => if c = ' ' then '_' else c)

/-- Whitespace test used by the model of argument-less Python `str.split()`
(the ASCII whitespace cases). -/
def isWS (c : Char) : Bool :=
  c == ' ' || c == '\t' || c == '\n' || c == '\r'

/-- Helper for `splitWS`: `acc` holds the characters of the current word in
reverse. -/
def splitWSAux : List Char → List Char → List (List Char)
  | [], acc => if acc.isEmpty then [] else [acc.reverse]
  | c :: rest, acc =>
    if isWS c then
      (if acc.isEmpty then [] else [acc.reverse]) ++ splitWSAux rest []
    else splitWSAux rest (c :: acc)

/-- Model of argument-less Python `condition.split()` (report_generator.py
line 267): split on whitespace runs discarding empty words. -/
def splitWS (l : List Char) : List (List Char) := splitWSAux l []

/-- Model of Python `"_".join(parts)` (report_generator.py line 267). -/
def joinUnd : List (List Char) → List Char
  | [] => []
  | [p] => p
  | p :: q :: rest => p ++ '_' :: joinUnd (q :: rest)

/-- First lookup key (report_generator.py line 262):
`f"{plant}___{condition}".lower().replace(" ", "_")` (the trailing
`.replace("___", "___")` of the source is the identity and is omitted). -/
def key1 (plant condition : List Char) : List Char :=
  spaceToUnderscore (pyLower (plant ++ delim ++ condition))

/-- Second lookup key (report_generator.py line 266):
`f"{plant.lower()}___{condition.lower().replace(' ','_')}"`. -/
def key2 (plant condition : List Char) : List Char :=
  pyLower plant ++ delim ++ spaceToUnderscore (pyLower condition)

/-- Third lookup key (report_generator.py line 267):
`f"{plant.lower()}___{'_'.join(condition.lower().split())}"`. -/
def key3 (plant condition : List Char) : List Char :=
  pyLower plant ++ delim ++ joinUnd (splitWS (pyLower condition))

/-- The knowledge-base lookup of `generate_enhanced_report`
(report_generator.py lines 262-268): the `or`-chain of the three
normalisation attempts (Python `or` returns the first non-`None` result). -/
def lookupDisease (plant condition : List Char) : Option DiseaseRecord :=
  (dictGet (key1 plant condition)).orElse fun _ =>
    (dictGet (key2 plant condition)).orElse fun _ =>
      dictGet (key3 plant condition)

/-- The apostrophe character, kept out of string literals. -/
def apos : Char := Char.ofNat 39

/-- The `ValueError` message of the missing-record branch
(report_generator.py lines 270-273). -/
def noDataMsg (plant condition : List Char) : List Char :=
  "No disease data found for ".toList ++ [apos] ++ plant ++ " – ".toList ++
    condition ++ [apos] ++
    ". Add an entry to DISEASE_DATA in report_generator.py.".toList

/-- Abstraction of the ReportLab flowables appended to `story`
(report_generator.py lines 287-474), at the level of their content. -/
inductive StoryItem where
  | headerBanner (text : List Char)
  | subBanner (text : List Char)
  | spacer
  | summaryTable (plant condition : List Char) (confidence : ℚ)
      (reportId : List Char)
  | caption (text : List Char)
  | leafImage
  | sectionHeader (text : List Char)
  | paragraph (text : List Char)
  | taxonomyTable (rows : List (List Char × List Char))
  | stageBlock (title : List Char)
  | treatTable (rows : List (List (List Char)))
  | riskRow (label level : List Char) (color : RiskColor) (desc : List Char)
  | bulletItem (n : Nat) (text : List Char)
  | hrule

/-- Concatenation of the lists produced for each element (models the
`for`-loops that append one group of flowables per data row). -/
def concatMap {α β : Type} (f : α → List β) : List α → List β
  | [] => []
  | x :: xs => f x ++ concatMap f xs

/-- The fixed `story` sequence of `generate_enhanced_report`
(report_generator.py lines 287-474), in source order: header banners,
summary card, optional analysed image, scientific overview with taxonomy
table, staged symptoms, organic and chemical treatment tables, risk rows,
numbered prevention bullets, and the footer disclaimer. -/
def buildStory (plant condition : List Char) (confidence : ℚ)
    (reportId generatedOn : List Char) (imageOk : Bool)
    (data : DiseaseRecord) : List StoryItem :=
  StoryItem.headerBanner ("PlantCare AI".toList) ::
  ([StoryItem.subBanner ("Enhanced Plant Disease Diagnosis Report".toList),
    StoryItem.spacer,
    StoryItem.summaryTable plant condition confidence reportId,
    StoryItem.spacer,
    StoryItem.caption (("Generated on ").toList ++ generatedOn ++
      ("  ·  Model: MobileNetV2 (Transfer Learning) — PlantVillage Dataset").toList),
    StoryItem.spacer] ++
   (if imageOk then
      [StoryItem.paragraph ("<b>Analysed Leaf Image</b>".toList),
       StoryItem.spacer, StoryItem.leafImage, StoryItem.spacer]
    else []) ++
   [StoryItem.sectionHeader ("1.  Scientific Overview & Pathogen Information".toList),
    StoryItem.spacer,
    StoryItem.paragraph (("<b>Causal Pathogen:</b>  ").toList ++ data.pathogen),
    StoryItem.spacer,
    StoryItem.paragraph data.overview,
    StoryItem.spacer,
    StoryItem.paragraph ("<b>Taxonomic Classification</b>".toList),
    StoryItem.spacer,
    StoryItem.taxonomyTable data.taxonomy,
    StoryItem.spacer,
    StoryItem.sectionHeader ("2.  Symptom Progression".toList),
    StoryItem.spacer] ++
   concatMap (fun sd =>
      [StoryItem.stageBlock sd.1, StoryItem.paragraph sd.2, StoryItem.spacer])
     data.symptoms ++
   [StoryItem.spacer,
    StoryItem.sectionHeader ("3.  Treatment Protocols".toList),
    StoryItem.spacer,
    StoryItem.paragraph ("<b>3a.  Organic / Biological Treatments</b>".toList),
    StoryItem.spacer,
    StoryItem.treatTable
      (concatMap (fun r => [[r.1, r.2.1, r.2.2]]) data.organic_treatments),
    StoryItem.spacer,
    StoryItem.paragraph ("<b>3b.  Chemical Fungicide Treatments</b>".toList),
    StoryItem.spacer,
    StoryItem.caption (("Always follow label directions. Rotate between FRAC groups " ++
      "to prevent resistance. Strictly observe pre-harvest intervals (PHI).").toList),
    StoryItem.spacer,
    StoryItem.treatTable
      (concatMap (fun r => [[r.1, r.2.1, r.2.2.1, r.2.2.2]]) data.chemical_treatments),
    StoryItem.spacer,
    StoryItem.sectionHeader ("4.  Risk Assessment & Spread Patterns".toList),
    StoryItem.spacer] ++
   concatMap (fun r =>
      [StoryItem.riskRow r.1 r.2.1 r.2.2.1 r.2.2.2, StoryItem.spacer])
     data.risks ++
   [StoryItem.spacer,
    StoryItem.sectionHeader ("5.  Prevention Guidelines".toList),
    StoryItem.spacer] ++
   concatMap (fun it => [StoryItem.bulletItem it.1 it.2, StoryItem.spacer])
     (List.enumFrom 1 data.prevention) ++
   [StoryItem.spacer,
    StoryItem.hrule,
    StoryItem.spacer,
    StoryItem.paragraph ("Disclaimer & Limitations".toList),
    StoryItem.spacer,
    StoryItem.paragraph (("This report was generated by PlantCare AI using a MobileNetV2 " ++
      "deep-learning model trained on the PlantVillage dataset. The AI confidence score " ++
      "reflects probabilistic model output and does not constitute a definitive agronomic " ++
      "diagnosis. Results may not account for co-infections, growth stage variation, or " ++
      "local environmental factors. Treatment recommendations are for informational " ++
      "purposes only and are based on generalised agronomic literature. Verify pesticide " ++
      "registrations and pre-harvest intervals with local regulatory authorities before " ++
      "use. For critical crop-protection decisions consult a qualified plant pathologist " ++
      "or certified crop adviser. PlantCare AI and its developers accept no liability for " ++
      "crop losses, regulatory violations, or adverse outcomes arising from reliance on " ++
      "this report.").toList),
    StoryItem.spacer,
    StoryItem.caption (("© 2026 PlantCare AI  ·  Smart Bridge Hyderabad  ·  Report ID: ").toList ++
      reportId ++ ("  ·  ").toList ++ generatedOn)])

/-- Model of `generate_enhanced_report` (report_generator.py lines 237-477).
The knowledge-base lookup runs first; a missing record raises the
`ValueError` of `noDataMsg` before any document is assembled; otherwise the
full story is built and rendered (the ReportLab rendering of the story to
PDF bytes is external code and is modelled by the story itself, which is the
exact content handed to `doc.build`). -/
def generate_enhanced_report (plant condition : List Char) (confidence : ℚ)
    (reportId generatedOn : List Char) (imageOk : Bool) :
    Except (List Char) (List StoryItem) :=
  match lookupDisease plant condition with
  | none => .error (noDataMsg plant condition)
  | some data =>
    .ok (buildStory plant condition confidence reportId generatedOn imageOk data)

/-! ### Helper lemmas about the string model -/

theorem split3_delim (s : List Char) :
    split3 ('_' :: '_' :: '_' :: s) = [] :: split3 s := rfl

theorem split3_cons_not (c : Char) (t : List Char)
    (h : startsW delim (c :: t) = false) :
    split3 (c :: t) = consHead c (split3 t) := by
  rw [split3.eq_def]
  split
  · simp_all
  · rename_i rest heq
    obtain ⟨hc, ht⟩ := List.cons.inj heq
    subst hc; subst ht
    simp [startsW, delim] at h
  · rename_i heq
    obtain ⟨hc, ht⟩ := List.cons.inj heq
    subst hc; subst ht
    rfl

theorem startsW_delim_append (A x : List Char) (hne : A ≠ [])
    (hA : containsSub delim A = false) (hAe : A.getLast? ≠ some '_') :
    startsW delim (A ++ x) = false := by
  match A with
  | [] => exact absurd rfl hne
  | [c] =>
    have hc : c ≠ '_' := by
      intro h; exact hAe (by simp [h])
    simp [startsW, delim, hc, Ne.symm hc]
  | [c, d] =>
    have hd : d ≠ '_' := by
      intro h; exact hAe (by simp [h])
    simp [startsW, delim, Ne.symm hd]
  | c :: d :: e :: t =>
    have h0 : startsW delim (c :: d :: e :: t) = false := by
      have := hA
      simp [containsSub] at this
      exact this.1
    simp only [List.cons_append]
    simp [startsW, delim] at h0 ⊢
    exact h0

theorem split3_no_delim (l : List Char) (h : containsSub delim l = false) :
    split3 l = [l] := by
  induction l with
  | nil => rfl
  | cons c t ih =>
    simp only [containsSub, Bool.or_eq_false_iff] at h
    rw [split3_cons_not c t h.1, ih h.2]
    rfl

theorem getLast?_cons_of_ne_nil (c : Char) (t : List Char) (h : t ≠ []) :
    (c :: t).getLast? = t.getLast? := by
  match t with
  | [] => exact absurd rfl h
  | d :: t' => exact List.getLast?_cons_cons

theorem split3_append_delim (A s : List Char)
    (hA : containsSub delim A = false) (hAe : A.getLast? ≠ some '_') :
    split3 (A ++ delim ++ s) = A :: split3 s := by
  induction A with
  | nil => simpa [delim] using split3_delim s
  | cons c A' ih =>
    have hA' : containsSub delim A' = false := by
      simp only [containsSub, Bool.or_eq_false_iff] at hA
      exact hA.2
    have hAe' : A'.getLast? ≠ some '_' := by
      match A' with
      | [] => simp
      | d :: t' =>
        rw [← getLast?_cons_of_ne_nil c (d :: t') (List.cons_ne_nil d t')]
        exact hAe
    have hsw : startsW delim ((c :: A') ++ (delim ++ s)) = false :=
      startsW_delim_append (c :: A') (delim ++ s) (List.cons_ne_nil c A') hA hAe
    have step : split3 (c :: (A' ++ (delim ++ s))) = consHead c (split3 (A' ++ (delim ++ s))) := by
      apply split3_cons_not
      simpa using hsw
    calc split3 ((c :: A') ++ delim ++ s)
        = split3 (c :: (A' ++ (delim ++ s))) := by simp
      _ = consHead c (split3 (A' ++ (delim ++ s))) := step
      _ = consHead c (A' :: split3 s) := by
          rw [show A' ++ (delim ++ s) = A' ++ delim ++ s from (List.append_assoc A' delim s).symm,
             ih hA' hAe']
      _ = (c :: A') :: split3 s := rfl

theorem startsW_map_eq (HW : List Char) (f g : Char → Char)
    (P : ∀ ch, f ch = g ch ∨ (f ch ∉ HW ∧ g ch ∉ HW)) :
    ∀ (n l : List Char), (∀ x, x ∈ n → x ∈ HW) →
      startsW n (l.map f) = startsW n (l.map g) := by
  intro n
  induction n with
  | nil => intro l _; rfl
  | cons x n' ih =>
    intro l hsub
    match l with
    | [] => rfl
    | c :: l' =>
      simp only [List.map_cons, startsW]
      rcases P c with heq | ⟨hf, hg⟩
      · rw [heq, ih l' (fun y hy => hsub y (List.mem_cons_of_mem x hy))]
      · have hx : x ∈ HW := hsub x (List.mem_cons_self x n')
        have h1 : (x == f c) = false := by
          simp only [beq_eq_false_iff_ne]
          intro hxe; exact hf (hxe ▸ hx)
        have h2 : (x == g c) = false := by
          simp only [beq_eq_false_iff_ne]
          intro hxe; exact hg (hxe ▸ hx)
        rw [h1, h2]
        simp

theorem containsSub_map_eq (HW : List Char) (f g : Char → Char)
    (P : ∀ ch, f ch = g ch ∨ (f ch ∉ HW ∧ g ch ∉ HW)) :
    ∀ l : List Char, containsSub HW (l.map f) = containsSub HW (l.map g) := by
  intro l
  induction l with
  | nil => rfl
  | cons c l' ih =>
    simp only [List.map_cons, containsSub]
    rw [ih]
    have hs := startsW_map_eq HW f g P HW (c :: l') (fun x hx => hx)
    simp only [List.map_cons] at hs
    rw [hs]

theorem healthy_usToSpace (B : List Char) :
    containsSub healthyWord (pyLower (usToSpace B)) =
      containsSub healthyWord (pyLower B) := by
  show containsSub healthyWord
      ((B.map fun c => if c = '_' then ' ' else c).map Char.toLower) =
    containsSub healthyWord (B.map Char.toLower)
  rw [List.map_map]
  refine containsSub_map_eq healthyWord _ Char.toLower ?_ B
  intro ch
  by_cases hch : ch = '_'
  · subst hch
    right
    exact ⟨by decide, by decide⟩
  · left
    simp [Function.comp, hch]

theorem generate_closed_form (chunks : List (List Char)) (err : Option (List Char)) :
    generate chunks err =
      (chunks.filter (fun t => t != [])).map dataEvent ++ [terminalEvent err] := by
  induction chunks with
  | nil => cases err <;> rfl
  | cons t ts ih =>
    by_cases ht : t = []
    · subst ht; simp [generate, ih]
    · simp [generate, ht, ih]

/-! ### Claim theorems -/

/-- Claim C1, amended: the chat stream generator relays one `data:` event per
non-empty chunk text, newline-escaped, in arrival order, followed by exactly
one closing event; the closing event is the `data: [DONE]` sentinel when the
upstream iteration completes, and the `data: [ERROR] ...` relay — with no
`[DONE]` after it — when the upstream iteration raises; the two closing
events are never equal. -/
theorem chat_stream_events (chunks : List (List Char)) (err : Option (List Char)) :
    generate chunks err =
      (chunks.filter (fun t => t != [])).map dataEvent ++ [terminalEvent err] ∧
    (generate chunks err).getLast? = some (terminalEvent err) ∧
    ∀ e, errorEvent e ≠ doneEvent := by
  refine ⟨generate_closed_form chunks err, ?_, ?_⟩
  · rw [generate_closed_form chunks err, List.getLast?_append_cons]
    rfl
  · intro e h
    have hlen : (errorEvent e).length = doneEvent.length := by rw [h]
    have h14 : ("data: [ERROR] ".toList).length = 14 := by decide
    have h2 : ("\n\n".toList).length = 2 := by decide
    have hd : doneEvent.length = 14 := by decide
    simp only [errorEvent, List.length_append, h14, h2, hd] at hlen
    omega

/-- Witness for `chat_stream_events` at a concrete chunk list and upstream
error. -/
theorem chat_stream_events_witness :
    generate [("hi".toList)] (some ("boom".toList)) =
      [dataEvent ("hi".toList), errorEvent ("boom".toList)] ∧
    errorEvent ("boom".toList) ≠ doneEvent := by
  have h := chat_stream_events [("hi".toList)] (some ("boom".toList))
  refine ⟨?_, h.2.2 ("boom".toList)⟩
  rw [h.1]
  decide

/-- Counterexample to claim C1 as stated: when the upstream iteration raises
before any chunk arrives, the relayed stream does not end with the
`data: [DONE]` sentinel (it ends with the error relay instead). -/
theorem chat_stream_done_counterexample :
    (generate [] (some ("boom".toList))).getLast? ≠ some doneEvent := by decide

/-- Claim C2, amended: for a label of the shape `A ++ "___" ++ B` where `A`
and `B` contain no delimiter and `A` does not end in an underscore,
`parse_class_name` returns the plant `A` with underscores replaced by spaces
and commas removed, the condition `B` with underscores replaced by spaces,
and a healthy flag that is true exactly when `"healthy"` occurs in `B`
case-insensitively (the code lowercases the condition before the substring
test); for an input with no delimiter the condition is the literal
`"Unknown"`. -/
theorem parse_class_name_spec (A B : List Char)
    (hA : containsSub delim A = false) (hAe : A.getLast? ≠ some '_')
    (hB : containsSub delim B = false) :
    parse_class_name (A ++ delim ++ B) =
      (removeCommas (usToSpace A), usToSpace B,
        containsSub healthyWord (pyLower B)) ∧
    ∀ C : List Char, containsSub delim C = false →
      (parse_class_name C).2.1 = unknownStr := by
  constructor
  · have hsplit : split3 (A ++ delim ++ B) = [A, B] := by
      rw [split3_append_delim A B hA hAe, split3_no_delim B hB]
    have hpc : pcCondition [A, B] = usToSpace B := by
      simp [pcCondition]
    unfold parse_class_name
    rw [hsplit, hpc, healthy_usToSpace B]
    rfl
  · intro C hC
    show pcCondition (split3 C) = unknownStr
    rw [split3_no_delim C hC]
    simp [pcCondition]

/-- Witness for `parse_class_name_spec` at the concrete labels
`"Pepper,_bell___Bacterial_spot"` and `"Raspberry"`. -/
theorem parse_class_name_spec_witness :
    parse_class_name (("Pepper,_bell".toList) ++ delim ++ ("Bacterial_spot".toList)) =
      (removeCommas (usToSpace ("Pepper,_bell".toList)),
        usToSpace ("Bacterial_spot".toList),
        containsSub healthyWord (pyLower ("Bacterial_spot".toList))) ∧
    (parse_class_name ("Raspberry".toList)).2.1 = unknownStr := by
  have h := parse_class_name_spec ("Pepper,_bell".toList) ("Bacterial_spot".toList)
    (by decide) (by decide) (by decide)
  exact ⟨h.1, h.2 ("Raspberry".toList) (by decide)⟩

/-- Counterexample to claim C2 as stated: on the label `"Apple___HEALTHY"`
the healthy flag is true, although the substring `"healthy"` does not occur
in the condition part `"HEALTHY"` — the code tests case-insensitively. -/
theorem parse_class_name_case_counterexample :
    (parse_class_name ("Apple___HEALTHY".toList)).2.2 = true ∧
    containsSub ("healthy".toList) ("HEALTHY".toList) = false := by decide

/-- Claim C3, amended: the split runs over every delimiter occurrence, so for
a label `A ++ "___" ++ B ++ "___" ++ rest` the condition is the normalized
segment `B` between the first and second delimiters; the text after the
second delimiter is discarded, not appended to the condition. -/
theorem parse_class_name_second_segment (A B rest : List Char)
    (hA : containsSub delim A = false) (hAe : A.getLast? ≠ some '_')
    (hB : containsSub delim B = false) (hBe : B.getLast? ≠ some '_') :
    (parse_class_name (A ++ delim ++ (B ++ delim ++ rest))).2.1 = usToSpace B := by
  have hsplit : split3 (A ++ delim ++ (B ++ delim ++ rest)) = A :: B :: split3 rest := by
    rw [split3_append_delim A (B ++ delim ++ rest) hA hAe,
        split3_append_delim B rest hB hBe]
  show pcCondition (split3 (A ++ delim ++ (B ++ delim ++ rest))) = usToSpace B
  rw [hsplit]
  unfold pcCondition
  rw [if_pos (by simp only [List.length_cons]; omega)]
  rfl

/-- Witness for `parse_class_name_second_segment` at a concrete label with
two delimiters. -/
theorem parse_class_name_second_segment_witness :
    (parse_class_name (("Grape".toList) ++ delim ++
        (("Esca".toList) ++ delim ++ ("extra".toList)))).2.1 =
      usToSpace ("Esca".toList) :=
  parse_class_name_second_segment ("Grape".toList) ("Esca".toList) ("extra".toList)
    (by decide) (by decide) (by decide) (by decide)

/-- Counterexample to claim C3 as stated: on `"Corn___Gray_leaf___spot"` the
condition is the normalized segment between the first and second delimiters
(`"Gray leaf"`), not the normalized whole remainder after the first
delimiter. -/
theorem parse_class_name_remainder_counterexample :
    (parse_class_name ("Corn___Gray_leaf___spot".toList)).2.1 = "Gray leaf".toList ∧
    (parse_class_name ("Corn___Gray_leaf___spot".toList)).2.1 ≠
      usToSpace ("Gray_leaf___spot".toList) := by decide

theorem listMax_bounds : ∀ (l : List ℚ), l ≠ [] → (∀ p ∈ l, 0 ≤ p ∧ p ≤ 1) →
    0 ≤ listMax l ∧ listMax l ≤ 1 := by
  intro l
  induction l with
  | nil => intro h _; exact absurd rfl h
  | cons p t ih =>
    intro _ hm
    cases t with
    | nil => exact hm p (by simp)
    | cons q rest =>
      have hpq := hm p (by simp)
      have iht := ih (List.cons_ne_nil q rest)
        (fun x hx => hm x (List.mem_cons_of_mem p hx))
      show 0 ≤ max p (listMax (q :: rest)) ∧ max p (listMax (q :: rest)) ≤ 1
      exact ⟨le_max_of_le_left hpq.1, max_le hpq.2 iht.2⟩

theorem round2_bounds (x : ℚ) (h0 : 0 ≤ x) (h1 : x ≤ 100) :
    0 ≤ round2 x ∧ round2 x ≤ 100 := by
  have hz0 : (0:ℚ) ≤ x * 100 := by linarith
  have hz1 : x * 100 ≤ 10000 := by linarith
  have hr0 : 0 ≤ round (x * 100) := by
    rw [round_eq]
    exact Int.le_floor.mpr (by push_cast; linarith)
  have hr1 : round (x * 100) ≤ 10000 := by
    rw [round_eq]
    have hfl : ((⌊x * 100 + 1/2⌋ : ℤ) : ℚ) ≤ x * 100 + 1/2 := Int.floor_le _
    have hlt : ((⌊x * 100 + 1/2⌋ : ℤ) : ℚ) < 10001 := by linarith
    have hlt2 : (⌊x * 100 + 1/2⌋ : ℤ) < 10001 := by exact_mod_cast hlt
    omega
  constructor
  · exact div_nonneg (by exact_mod_cast hr0) (by norm_num)
  · unfold round2
    rw [div_le_iff₀ (by norm_num : (0:ℚ) < 100)]
    have hc : ((round (x * 100) : ℤ) : ℚ) ≤ 10000 := by exact_mod_cast hr1
    linarith

/-- Claim C5: for probability vectors with entries in `[0, 1]`, the reported
confidence equals the maximum probability times 100 rounded to two decimal
places, and always lies within `[0, 100]`. -/
theorem predict_confidence_spec (cns : List (List Char)) (probs : List ℚ)
    (hne : probs ≠ []) (hp : ∀ p ∈ probs, 0 ≤ p ∧ p ≤ 1) :
    (predict_core cns probs).confidence = round2 (listMax probs * 100) ∧
    0 ≤ (predict_core cns probs).confidence ∧
    (predict_core cns probs).confidence ≤ 100 := by
  have hm := listMax_bounds probs hne hp
  have hb := round2_bounds (listMax probs * 100) (by linarith [hm.1]) (by linarith [hm.2])
  exact ⟨rfl, hb.1, hb.2⟩

/-- Witness for `predict_confidence_spec` at the one-entry vector `[1]`. -/
theorem predict_confidence_spec_witness :
    (predict_core [] [(1:ℚ)]).confidence = round2 (listMax [(1:ℚ)] * 100) ∧
    0 ≤ (predict_core [] [(1:ℚ)]).confidence ∧
    (predict_core [] [(1:ℚ)]).confidence ≤ 100 :=
  predict_confidence_spec [] [(1:ℚ)] (by decide) (by norm_num)

/-- Claim C6: the recommendation list depends only on the healthy flag —
healthy predictions get exactly the fixed four-element healthy-branch list
and all others exactly the fixed four-element diseased-branch list. -/
theorem predict_recommendations_spec (cns : List (List Char)) (probs : List ℚ) :
    (predict_core cns probs).recommendations =
      (if (predict_core cns probs).is_healthy then healthyRecs else diseasedRecs) ∧
    healthyRecs.length = 4 ∧ diseasedRecs.length = 4 :=
  ⟨rfl, rfl, rfl⟩

/-- Claim C9: when the argmax index is not below the number of loaded class
names, the prediction never indexes the class list out of bounds: the raw
label is `"Unknown"`, which parses to plant `"Unknown"`, condition
`"Unknown"` and a false healthy flag. -/
theorem predict_unknown_label (cns : List (List Char)) (probs : List ℚ)
    (h : cns.length ≤ argmax probs) :
    (predict_core cns probs).raw_class = unknownStr ∧
    (predict_core cns probs).plant_type = unknownStr ∧
    (predict_core cns probs).condition = unknownStr ∧
    (predict_core cns probs).is_healthy = false := by
  have hn : ¬ (argmax probs < cns.length) := not_lt.mpr h
  have hparse : parse_class_name unknownStr = (unknownStr, unknownStr, false) := by decide
  simp [predict_core, hn, hparse]

/-- Witness for `predict_unknown_label` with an empty class-name list. -/
theorem predict_unknown_label_witness :
    (predict_core [] [(1:ℚ)]).raw_class = unknownStr ∧
    (predict_core [] [(1:ℚ)]).plant_type = unknownStr ∧
    (predict_core [] [(1:ℚ)]).condition = unknownStr ∧
    (predict_core [] [(1:ℚ)]).is_healthy = false :=
  predict_unknown_label [] [(1:ℚ)] (by decide)

/-- Claim C7: `predict_image` yields the distinguished "Model not loaded"
error exactly when the model handle is absent — for every image outcome,
including failing ones, so the guard fires before any decoding — while a
decode failure with a loaded model propagates as the generic failure. -/
theorem predict_image_model_guard (m : Bool) (image : Except (List Char) (List ℚ))
    (cns : List (List Char)) :
    (predict_image m image cns = PredictResult.modelNotLoaded ↔ m = false) ∧
    (∀ e, image = Except.error e → m = true →
      predict_image m image cns = PredictResult.failure e) := by
  cases m with
  | false =>
    refine ⟨by simp [predict_image], ?_⟩
    intro e _ hm
    exact absurd hm (by simp)
  | true =>
    constructor
    · cases image with
      | error e => simp [predict_image]
      | ok probs => simp [predict_image]
    · intro e he _
      subst he
      rfl

/-- Witness for `predict_image_model_guard`: with a loaded model a decode
error surfaces as the generic failure. -/
theorem predict_image_model_guard_witness :
    predict_image true (Except.error ("decode failed".toList)) [] =
      PredictResult.failure ("decode failed".toList) :=
  (predict_image_model_guard true (Except.error ("decode failed".toList)) []).2
    ("decode failed".toList) rfl rfl

/-- Claim C8: the `/predict` handler answers HTTP 400 exactly when the
request has no file entry or the uploaded filename is empty; in every other
case the status is 200 or 500, never 400. -/
theorem predict_route_badRequest_iff (file : Option (List Char))
    (pipeline : Except (List Char) Unit) :
    statusOf (predict_route file pipeline) = 400 ↔
      file = none ∨ file = some [] := by
  cases file with
  | none => simp [predict_route, statusOf]
  | some fname =>
    by_cases hf : fname = []
    · subst hf; simp [predict_route, statusOf]
    · cases pipeline with
      | ok u => simp [predict_route, statusOf, hf]
      | error e => simp [predict_route, statusOf, hf]

/-- Witness for `predict_route_badRequest_iff` at a request with no file
entry. -/
theorem predict_route_badRequest_iff_witness :
    statusOf (predict_route none (Except.ok ())) = 400 :=
  (predict_route_badRequest_iff none (Except.ok ())).mpr (Or.inl rfl)

/-- Claim C4: for the known pair `"Strawberry"` / `"Leaf scorch"` the report
generator succeeds and hands a non-empty document content to the renderer;
for any pair whose normalized keys miss the knowledge base it fails with the
distinct "no data" `ValueError` before building anything, producing no
output. -/
theorem report_known_and_unknown (conf : ℚ) (reportId generatedOn : List Char)
    (imageOk : Bool) :
    generate_enhanced_report ("Strawberry".toList) ("Leaf scorch".toList)
        conf reportId generatedOn imageOk =
      Except.ok (buildStory ("Strawberry".toList) ("Leaf scorch".toList)
        conf reportId generatedOn imageOk strawberryLeafScorch) ∧
    buildStory ("Strawberry".toList) ("Leaf scorch".toList)
        conf reportId generatedOn imageOk strawberryLeafScorch ≠ [] ∧
    ∀ plant condition : List Char, lookupDisease plant condition = none →
      generate_enhanced_report plant condition conf reportId generatedOn imageOk =
        Except.error (noDataMsg plant condition) := by
  refine ⟨?_, ?_, ?_⟩
  · have hlook : lookupDisease ("Strawberry".toList) ("Leaf scorch".toList) =
        some strawberryLeafScorch := rfl
    unfold generate_enhanced_report
    rw [hlook]
  · unfold buildStory
    exact List.cons_ne_nil _ _
  · intro plant condition hnone
    unfold generate_enhanced_report
    rw [hnone]

/-- Witness for `report_known_and_unknown`: the known pair succeeds, an
unknown pair fails with the "no data" error. -/
theorem report_known_and_unknown_witness :
    generate_enhanced_report ("Strawberry".toList) ("Leaf scorch".toList)
        0 [] [] false =
      Except.ok (buildStory ("Strawberry".toList) ("Leaf scorch".toList)
        0 [] [] false strawberryLeafScorch) ∧
    generate_enhanced_report ("Tomato".toList) ("Late blight".toList)
        0 [] [] false =
      Except.error (noDataMsg ("Tomato".toList) ("Late blight".toList)) := by
  have h := report_known_and_unknown 0 [] [] false
  exact ⟨h.1, h.2.2 ("Tomato".toList) ("Late blight".toList) rfl⟩

/-- Claim C10: the knowledge-base lookup is case-insensitive — replacing the
plant or the condition by any variant with the same lowercase image leaves
the lookup result (hit with the same record, or miss) unchanged. -/
theorem lookup_case_insensitive (p c p2 c2 : List Char)
    (hp : pyLower p2 = pyLower p) (hc : pyLower c2 = pyLower c) :
    lookupDisease p2 c2 = lookupDisease p c := by
  have hk1 : key1 p2 c2 = key1 p c := by
    unfold key1
    rw [show pyLower (p2 ++ delim ++ c2) = pyLower p2 ++ pyLower delim ++ pyLower c2 by
          simp [pyLower, List.map_append],
        show pyLower (p ++ delim ++ c) = pyLower p ++ pyLower delim ++ pyLower c by
          simp [pyLower, List.map_append],
        hp, hc]
  have hk2 : key2 p2 c2 = key2 p c := by unfold key2; rw [hp, hc]
  have hk3 : key3 p2 c2 = key3 p c := by unfold key3; rw [hp, hc]
  unfold lookupDisease
  rw [hk1, hk2, hk3]

/-- Witness for `lookup_case_insensitive`: the all-caps variant of the known
pair resolves to the same record as the canonical spelling. -/
theorem lookup_case_insensitive_witness :
    lookupDisease ("STRAWBERRY".toList) ("LEAF SCORCH".toList) =
      lookupDisease ("Strawberry".toList) ("Leaf scorch".toList) :=
  lookup_case_insensitive ("Strawberry".toList) ("Leaf scorch".toList)
    ("STRAWBERRY".toList) ("LEAF SCORCH".toList) (by decide) (by decide)
